import Mathlib

/-!
Verification of the three Open WebUI document-creation tools
(`excel_spreadsheet_creator.py`, `word_document_creator.py`,
`pdf_document_creator.py`) against their natural-language specification.

Strings are modelled as `List Char`.  Python string operations used by the
tools are embedded faithfully for the ASCII inputs the tools manipulate:
`str.strip()` trims the ASCII whitespace characters, `str.strip(chars)`
trims the given characters from both ends, `str.split(sep)` with a
one-character separator is `List.splitOn`, and the regex class `\w`
(word character) is modelled as ASCII alphanumeric or underscore.
-/

namespace OpenWebUITools

/-- ASCII whitespace, as trimmed by Python `str.strip()` on the tools' ASCII
input (space, tab, newline, carriage return). -/
def pyWS (c : Char) : Bool :=
  c = ' ' || c = '\t' || c = '\n' || c = '\r'

/-- Remove leading characters satisfying `p` (left half of a Python strip). -/
def stripLeft (p : Char → Bool) (l : List Char) : List Char :=
  l.dropWhile p

/-- Remove trailing characters satisfying `p` (right half of a Python strip). -/
def stripRight (p : Char → Bool) (l : List Char) : List Char :=
  (l.reverse.dropWhile p).reverse

/-- Python `str.strip(...)` for the character predicate `p`: remove leading and
trailing characters satisfying `p`. -/
def stripBoth (p : Char → Bool) (l : List Char) : List Char :=
  stripRight p (stripLeft p l)

/-- Python `str.strip()`: trim whitespace from both ends. -/
def pyTrim (l : List Char) : List Char := stripBoth pyWS l

/-- Python `str.upper()` on ASCII text. -/
def pyUpper (l : List Char) : List Char := l.map Char.toUpper

/-- Python `\w` from the tools' sanitization regex, on ASCII input:
alphanumeric or underscore. -/
def isWordChar (c : Char) : Bool := c.isAlphanum || c = '_'

/-- One step of `re.sub(r"[^\w\-]", "_", ...)`: the character class matches a
single character, which the substitution replaces by one underscore. -/
def sanitizeChar (c : Char) : Char :=
  if isWordChar c || c = '-' then c else '_'

/-- `re.sub(r"[^\w\-]", "_", s)` as the regex engine applies it: scan the
string and replace each single-character match by `"_"`. -/
def reSubNonWord : List Char → List Char
  | [] => []
  | c :: rest => sanitizeChar c :: reSubNonWord rest

/-- `safe_name = re.sub(r"[^\w\-]", "_", filename).strip("_")`
(identical in all three tools: excel line 182, word line 161, pdf line 175). -/
def safe_name (filename : List Char) : List Char :=
  stripBoth (fun c => c = '_') (reSubNonWord filename)

/-- `page = LETTER if page_size.upper() == "LETTER" else A4`
(pdf_document_creator.py line 173). -/
inductive PageSize
  | letter
  | a4
  deriving DecidableEq, Repr

/-- Page selection of the PDF tool: `LETTER` exactly when the upper-cased
argument is the string `LETTER`, `A4` in every other case. -/
def pdf_page (page_size : List Char) : PageSize :=
  if pyUpper page_size = "LETTER".toList then .letter else .a4

/-! ### Upload helpers

Each tool's `_upload_file` is modelled up to the point where it would perform
I/O: either it raises an exception before any network traffic (the excel and
pdf helpers do this on an empty token), or it issues the HTTP POST with the
headers it computed.  The word tool's helper additionally inspects the HTTP
response status, which is modelled separately. -/

/-- What an `_upload_file` helper does before/at the network boundary. -/
inductive UploadAttempt
  /-- A `ValueError` is raised before the `httpx` client is ever created:
  no HTTP request happens. -/
  | authError (msg : List Char)
  /-- The HTTP POST is issued, carrying the given `Authorization` header
  value (`none` = no such header was set). -/
  | post (authHeader : Option (List Char))
  deriving DecidableEq, Repr

/-- The `ValueError` message of the excel and pdf `_upload_file` on a missing
token (excel_spreadsheet_creator.py lines 231-234, pdf_document_creator.py
lines 57-60).  It names the missing Bearer token. -/
def noTokenMsg : List Char :=
  ("No Bearer token found in request. " ++
   "Check that __request__ is declared in the function signature.").toList

/-- The `RuntimeError` message of the word `_upload_file` on a 401 response
(word_document_creator.py lines 223-226). -/
def notAuthenticatedMsg : List Char :=
  ("Upload failed: not authenticated. " ++
   "Check that __request__ is declared in the function signature.").toList

/-- `_upload_file` of excel_spreadsheet_creator.py (lines 227-252): raise a
`ValueError` when the token is empty, otherwise POST with a Bearer header. -/
def excel_upload_attempt (token : List Char) : UploadAttempt :=
  if token.isEmpty then .authError noTokenMsg
  else .post (some ("Bearer ".toList ++ token))

/-- `_upload_file` of pdf_document_creator.py (lines 55-72): identical guard
to the excel helper. -/
def pdf_upload_attempt (token : List Char) : UploadAttempt :=
  if token.isEmpty then .authError noTokenMsg
  else .post (some ("Bearer ".toList ++ token))

/-- `_upload_file` of word_document_creator.py (lines 205-220): no token
guard; the POST is always issued, with the Authorization header present only
when the token is non-empty. -/
def word_upload_attempt (token : List Char) : UploadAttempt :=
  .post (if token.isEmpty then none else some ("Bearer ".toList ++ token))

/-- Result of the word tool's handling of the upload HTTP response
(word_document_creator.py lines 222-228). -/
inductive UploadResult
  | ok (fileId : List Char)
  | authFailure (msg : List Char)
  | httpError (status : Nat)
  deriving DecidableEq, Repr

/-- Response handling of the word `_upload_file`: status 401 raises the
authentication `RuntimeError`; any other 4xx/5xx raises via
`raise_for_status`; otherwise the `id` field of the JSON body is returned. -/
def word_upload_response (status : Nat) (fileId : List Char) : UploadResult :=
  if status = 401 then .authFailure notAuthenticatedMsg
  else if 400 ≤ status && status < 600 then .httpError status
  else .ok fileId

/-! ### Excel sheet parsing (excel_spreadsheet_creator.py) -/

namespace Excel

/-- Python `str.replace("===", "")`: delete every non-overlapping occurrence
of `===`, scanning left to right. -/
def removeEqEqEq : List Char → List Char
  | '=' :: '=' :: '=' :: rest => removeEqEqEq rest
  | c :: rest => c :: removeEqEqEq rest
  | [] => []

/-- Worksheet title of a sheet block:
`sheet_name = lines[0].replace("===", "").strip()[:31]` where
`lines = block.strip().split("\n")` (excel_spreadsheet_creator.py
lines 92-93). -/
def sheet_name (block : List Char) : List Char :=
  let lines := ((pyTrim block).splitOn '\n')
  (pyTrim (removeEqEqEq (lines.headD []))).take 31

/-- The untruncated worksheet title: first line of the stripped block with
every `===` removed and surrounding whitespace trimmed. -/
def sheet_title_full (block : List Char) : List Char :=
  pyTrim (removeEqEqEq (((pyTrim block).splitOn '\n').headD []))

/-- How a cell value is stored in the worksheet. -/
inductive NumberFormat
  | currency   -- number_format "$#,##0.00"
  | percent    -- number_format "0.00%"
  | plain      -- number_format "#,##0.##"
  deriving DecidableEq, Repr

/-- A written cell: either a number with a display format or the original
string. -/
inductive CellValue
  | num (v : ℚ) (fmt : NumberFormat)
  | str (s : List Char)
  deriving DecidableEq, Repr

/-- Value of a digit string read left to right. -/
def digitsVal (l : List Char) : ℕ :=
  l.foldl (fun acc c => acc * 10 + (c.toNat - '0'.toNat)) 0

/-- Python `float(s)` on the decimal strings the spreadsheet tool feeds it:
optional sign, then digits with an optional fractional part (at least one
digit overall).  Inputs outside this decimal subset — in particular any
string with a non-numeric character, such as the cleaned form of `N/A` —
yield `none`, matching the `ValueError` that `float` raises on them.
(The exotic accepted forms `inf`/`nan`/exponents never arise here.) -/
def pyFloat : List Char → Option ℚ := fun l =>
  let (sign, rest) : ℚ × List Char :=
    match l with
    | '-' :: r => (-1, r)
    | '+' :: r => (1, r)
    | r => (1, r)
  let intPart := rest.takeWhile Char.isDigit
  let after := rest.dropWhile Char.isDigit
  match after with
  | [] =>
    if intPart.isEmpty then none else some (sign * (digitsVal intPart : ℚ))
  | '.' :: frac =>
    if frac.all Char.isDigit && (!intPart.isEmpty || !frac.isEmpty) then
      some (sign * ((digitsVal intPart : ℚ) + (digitsVal frac : ℚ) / (10 : ℚ) ^ frac.length))
    else none
  | _ => none

/-- `value.replace(",", "").replace("$", "").replace("%", "")`
(excel_spreadsheet_creator.py lines 133-135). -/
def cleanNumeric (value : List Char) : List Char :=
  value.filter (fun c => !(c = ',' || c = '$' || c = '%'))

/-- Cell-value conversion of `create_spreadsheet`
(excel_spreadsheet_creator.py lines 131-147): strip `,`/`$`/`%`, attempt a
float parse; on success store the number with a currency format if `$` was
present, else a percentage format (dividing by 100) if `%` was present, else
a plain numeric format; on failure store the original string. -/
def cell_value (value : List Char) : CellValue :=
  match pyFloat (cleanNumeric value) with
  | some num =>
    if value.contains '$' then .num num .currency
    else if value.contains '%' then .num (num / 100) .percent
    else .num num .plain
  | none => .str value

end Excel

/-! ### Shared markup-parsing pieces of the word and pdf tools -/

/-- Cells of a table line:
`cells = [c.strip() for c in line.strip("|").split("|")]`
(word_document_creator.py line 143, pdf_document_creator.py line 259). -/
def table_cells (line : List Char) : List (List Char) :=
  ((stripBoth (fun c => c = '|') line).splitOn '|').map pyTrim

/-- `set(c) <= set("-| ")`: text made only of dashes, pipes and spaces,
the shape of a markdown table-separator cell. -/
def isSepText (c : List Char) : Bool :=
  c.all (fun ch => ch = '-' || ch = '|' || ch = ' ')

/-- `max(len(r) for r in rows)`, taken as `0` on the empty list (both flush
helpers only evaluate it on non-empty accumulators). -/
def maxWidth (rows : List (List (List Char))) : Nat :=
  rows.foldr (fun r acc => max r.length acc) 0

/-! ### Word document parsing (word_document_creator.py)

`create_word_document` scans the content lines with one pending accumulator
(`table_rows`) and appends elements to the document.  The document is
modelled as the list of structural blocks appended; purely presentational
details (run-level bold/italic splitting by `_add_formatted_run`, the spacing
paragraph `_flush_table` adds after a table, margins, the title heading and
the optional table-of-contents preamble) are not part of the block records.
-/

namespace Word

/-- A structural element appended to the .docx document body. -/
inductive Block
  | heading (level : Nat) (text : List Char)
  | bullet (text : List Char)
  | numbered (text : List Char)
  | table (grid : List (List (List Char)))
  | pageBreak
  | para (text : List Char)
  deriving DecidableEq, Repr

/-- The cell grid produced by `_flush_table` (word_document_creator.py lines
242-255): `add_table(rows=len(rows), cols=col_count)` with
`col_count = max(len(r) for r in rows)` creates a rectangular table of empty
cells, and cell `(i, j)` is then set to `rows[i][j]` for `j < len(rows[i])`;
cells of short rows beyond their length keep the empty string. -/
def grid (rows : List (List (List Char))) : List (List (List Char)) :=
  rows.map (fun r => (List.range (maxWidth rows)).map (fun j => r.getD j []))

/-- `_flush_table`: a no-op on an empty accumulator, otherwise append the
grid as one table block. -/
def flush_table (rows : List (List (List Char))) (out : List Block) : List Block :=
  if rows.isEmpty then out else out ++ [.table (grid rows)]

/-- Parser state: the pending `table_rows` accumulator and the blocks
appended so far. -/
abbrev State := List (List (List Char)) × List Block

/-- One iteration of the `for line in lines` loop of `create_word_document`
(word_document_creator.py lines 109-156), with the branch chain in source
order: `# `/`## `/`### ` headings, `- `/`* ` bullets, the
digit + `.`/`)` + space numbered-list shape, `|` table lines (separator rows
discarded), trimmed `---`/`***`/`___` page breaks, other non-blank lines as
paragraphs, and blank lines matching no branch. -/
def step : State → List Char → State
  | (rows, out), line =>
    if ['#', ' '].isPrefixOf line then
      ([], flush_table rows out ++ [.heading 1 (pyTrim (line.drop 2))])
    else if ['#', '#', ' '].isPrefixOf line then
      ([], flush_table rows out ++ [.heading 2 (pyTrim (line.drop 3))])
    else if ['#', '#', '#', ' '].isPrefixOf line then
      ([], flush_table rows out ++ [.heading 3 (pyTrim (line.drop 4))])
    else if ['-', ' '].isPrefixOf line || ['*', ' '].isPrefixOf line then
      ([], flush_table rows out ++ [.bullet (pyTrim (line.drop 2))])
    else if 2 < line.length && (line.getD 0 ' ').isDigit
        && (line.getD 1 'x' = '.' || line.getD 1 'x' = ')') && line.getD 2 'x' = ' ' then
      ([], flush_table rows out ++ [.numbered (pyTrim (line.drop 3))])
    else if ['|'].isPrefixOf line then
      (if (table_cells line).all (fun c => isSepText (pyTrim c)) then rows
       else rows ++ [table_cells line], out)
    else if pyTrim line = ['-', '-', '-'] ∨ pyTrim line = ['*', '*', '*']
        ∨ pyTrim line = ['_', '_', '_'] then
      ([], flush_table rows out ++ [.pageBreak])
    else if !(pyTrim line).isEmpty then
      ([], flush_table rows out ++ [.para (pyTrim line)])
    else (rows, out)

/-- The whole content scan: `lines = content.split("\n")`, the loop above,
then the final `self._flush_table(doc, table_rows)`
(word_document_creator.py lines 106-158). -/
def parse_content (content : List Char) : List Block :=
  let r := (content.splitOn '\n').foldl step ([], [])
  flush_table r.1 r.2

end Word

/-! ### PDF document parsing (pdf_document_creator.py)

`create_pdf` scans the content lines with two pending accumulators
(`bullet_items` and `table_rows`) and appends flowables to the story.  As for
the word tool, the story is modelled as the list of structural blocks; the
title/rule/spacer preamble, spacer flowables, table styling, and the inline
bold/italic markup rewriting applied to paragraph text (a presentation-layer
substitution for reportlab) are not part of the block records — a paragraph
block carries the trimmed source line.
-/

namespace Pdf

/-- A structural flowable group appended to the story. -/
inductive Block
  | heading (level : Nat) (text : List Char)
  /-- One flushed group of consecutive bullet items. -/
  | bulletList (items : List (List Char))
  | table (grid : List (List (List Char)))
  | rule
  | pageBreak
  | para (text : List Char)
  deriving DecidableEq, Repr

/-- The row padding of `flush_table` (pdf_document_creator.py lines 212-213):
`col_count = max(len(r) for r in table_rows)` and
`padded = [r + [""] * (col_count - len(r)) for r in table_rows]`. -/
def pad_rows (rows : List (List (List Char))) : List (List (List Char)) :=
  rows.map (fun r => r ++ List.replicate (maxWidth rows - r.length) [])

/-- `flush_bullets` (pdf_document_creator.py lines 202-207): a no-op when no
bullet items are pending, otherwise emit the pending items as one group and
clear the accumulator. -/
def flush_bullets (bullets : List (List Char)) (out : List Block) : List Block :=
  if bullets.isEmpty then out else out ++ [.bulletList bullets]

/-- `flush_table` (pdf_document_creator.py lines 209-239): a no-op when no
rows are pending, otherwise emit the padded grid as one table block and clear
the accumulator. -/
def flush_table (rows : List (List (List Char))) (out : List Block) : List Block :=
  if rows.isEmpty then out else out ++ [.table (pad_rows rows)]

/-- Parser state: pending `bullet_items`, pending `table_rows`, and the
blocks appended so far. -/
abbrev State := List (List Char) × List (List (List Char)) × List Block

/-- One iteration of the `for line in lines` loop of `create_pdf`
(pdf_document_creator.py lines 241-282), branches in source order.  Note the
differences from the word tool: a bullet line flushes only the table
accumulator, a table line flushes only the bullet accumulator, `---` is a
horizontal rule and `===` a page break, and there is no numbered-list
branch.  Blank lines match no branch. -/
def step : State → List Char → State
  | (bullets, rows, out), line =>
    if ['#', ' '].isPrefixOf line then
      ([], [], flush_table rows (flush_bullets bullets out) ++ [.heading 1 (pyTrim (line.drop 2))])
    else if ['#', '#', ' '].isPrefixOf line then
      ([], [], flush_table rows (flush_bullets bullets out) ++ [.heading 2 (pyTrim (line.drop 3))])
    else if ['#', '#', '#', ' '].isPrefixOf line then
      ([], [], flush_table rows (flush_bullets bullets out) ++ [.heading 3 (pyTrim (line.drop 4))])
    else if ['-', ' '].isPrefixOf line || ['*', ' '].isPrefixOf line then
      (bullets ++ [pyTrim (line.drop 2)], [], flush_table rows out)
    else if ['|'].isPrefixOf line then
      ([], if (table_cells line).all isSepText then rows else rows ++ [table_cells line],
       flush_bullets bullets out)
    else if pyTrim line = ['-', '-', '-'] then
      ([], [], flush_table rows (flush_bullets bullets out) ++ [.rule])
    else if pyTrim line = ['=', '=', '='] then
      ([], [], flush_table rows (flush_bullets bullets out) ++ [.pageBreak])
    else if !(pyTrim line).isEmpty then
      ([], [], flush_table rows (flush_bullets bullets out) ++ [.para (pyTrim line)])
    else (bullets, rows, out)

/-- The whole content scan: `lines = content.split("\n")`, the loop above,
then the final `flush_bullets(); flush_table()`
(pdf_document_creator.py lines 198-285). -/
def parse_content (content : List Char) : List Block :=
  let r := (content.splitOn '\n').foldl step ([], [], [])
  flush_table r.2.1 (flush_bullets r.1 r.2.2)

end Pdf

/-! ## General lemmas about the string helpers -/

theorem reSubNonWord_eq_map (l : List Char) : reSubNonWord l = l.map sanitizeChar := by
  induction l with
  | nil => rfl
  | cons c rest ih => simp [reSubNonWord, ih]

theorem mem_of_mem_stripBoth {p : Char → Bool} {l : List Char} {x : Char}
    (h : x ∈ stripBoth p l) : x ∈ l := by
  simp only [stripBoth, stripRight, stripLeft, List.mem_reverse] at h
  have h1 : x ∈ (l.dropWhile p).reverse := (List.dropWhile_sublist p).subset h
  exact (List.dropWhile_sublist p).subset (List.mem_reverse.mp h1)

theorem stripRight_cons {c : Char} (p : Char → Bool) (l : List Char) (hc : p c = false) :
    stripRight p (c :: l) = c :: stripRight p l := by
  simp only [stripRight, List.reverse_cons, List.dropWhile_append]
  by_cases h : (l.reverse.dropWhile p).isEmpty
  · rw [List.isEmpty_iff] at h
    simp [stripRight, h, List.dropWhile_cons, hc]
  · simp [h, List.reverse_append]

theorem pyTrim_cons_not_ws {c : Char} {l : List Char} (hc : pyWS c = false) :
    pyTrim (c :: l) = c :: stripRight pyWS l := by
  have h1 : stripLeft pyWS (c :: l) = c :: l := by
    simp [stripLeft, List.dropWhile_cons, hc]
  rw [pyTrim, stripBoth, h1, stripRight_cons pyWS l hc]

theorem pyTrim_all_ws {l : List Char} (h : ∀ c ∈ l, pyWS c = true) : pyTrim l = [] := by
  have h1 : stripLeft pyWS l = [] := by
    simp only [stripLeft]
    exact List.dropWhile_eq_nil_iff.mpr h
  simp [pyTrim, stripBoth, h1, stripRight]

theorem stripRight_append_ws {l w : List Char} (hw : ∀ c ∈ w, pyWS c = true) :
    stripRight pyWS (l ++ w) = stripRight pyWS l := by
  simp only [stripRight, List.reverse_append]
  rw [List.dropWhile_append_of_pos (fun c hc => hw c (List.mem_reverse.mp hc))]

theorem stripRight_no_ws_last {l : List Char} (hne : l ≠ [])
    (hl : pyWS (l.getLastD ' ') = false) : stripRight pyWS l = l := by
  rcases (List.eq_nil_or_concat l) with rfl | ⟨L, b, rfl⟩
  · exact absurd rfl hne
  · simp only [List.concat_eq_append] at hl ⊢
    rw [List.getLastD_concat] at hl
    simp only [stripRight, List.reverse_append, List.reverse_cons, List.reverse_nil,
      List.nil_append, List.dropWhile_cons, hl]
    simp [hl]

theorem pyTrim_pad {w₁ w₂ : List Char} (a : Char) (t : List Char)
    (h₁ : ∀ c ∈ w₁, pyWS c = true) (h₂ : ∀ c ∈ w₂, pyWS c = true)
    (ha : pyWS a = false) (hl : pyWS ((a :: t).getLastD ' ') = false) :
    pyTrim (w₁ ++ (a :: t) ++ w₂) = a :: t := by
  have hleft : stripLeft pyWS (w₁ ++ (a :: t) ++ w₂) = (a :: t) ++ w₂ := by
    rw [List.append_assoc]
    simp only [stripLeft]
    rw [List.dropWhile_append_of_pos h₁, List.cons_append, List.dropWhile_cons]
    simp [ha]
  rw [pyTrim, stripBoth, hleft, stripRight_append_ws h₂,
    stripRight_no_ws_last (by simp) hl]

theorem ws_head_facts {c : Char} (hc : pyWS c = true) :
    c ≠ '#' ∧ c ≠ '-' ∧ c ≠ '*' ∧ c ≠ '|' ∧ c.isDigit = false := by
  have h4 : c = ' ' ∨ c = '\t' ∨ c = '\n' ∨ c = '\r' := by
    simpa [pyWS, or_assoc] using hc
  rcases h4 with rfl | rfl | rfl | rfl <;>
    exact ⟨by decide, by decide, by decide, by decide, by decide⟩

theorem digit_head_facts {d : Char} (hd : d.isDigit = true) :
    d ≠ '#' ∧ d ≠ '-' ∧ d ≠ '*' ∧ d ≠ '|' ∧ d ≠ '=' ∧ pyWS d = false := by
  have hrange : '0' ≤ d ∧ d ≤ '9' := by
    simpa [Char.isDigit] using hd
  obtain ⟨hlo, hhi⟩ := hrange
  have hlo' : ('0' : Char).val ≤ d.val := hlo
  have hhi' : d.val ≤ ('9' : Char).val := hhi
  refine ⟨?_, ?_, ?_, ?_, ?_, ?_⟩
  · intro h; subst h; simp at hd
  · intro h; subst h; simp at hd
  · intro h; subst h; simp at hd
  · intro h; subst h; simp at hd
  · intro h; subst h; simp at hd
  · cases hws : pyWS d with
    | false => rfl
    | true =>
      rcases (ws_head_facts hws) with ⟨-, -, -, -, hdig⟩
      rw [hd] at hdig
      exact absurd hdig (by decide)

theorem prefix_false_head {x a : Char} (bs : List Char) {as : List Char} (h : x ≠ a) :
    (x :: bs).isPrefixOf (a :: as) = false := by
  simp [List.isPrefixOf_cons₂, h]

theorem prefix_false_second {x y a b : Char} (bs : List Char) {t : List Char} (h : y ≠ b) :
    (x :: y :: bs).isPrefixOf (a :: b :: t) = false := by
  simp [List.isPrefixOf_cons₂, h]

/-! ## Evaluation lemmas for the parser steps -/

/-- A word-tool line matching none of the prefix-shaped branches reaches the
trim-based tail of the branch chain. -/
theorem word_step_unmatched (line : List Char) (rows : List (List (List Char)))
    (out : List Word.Block)
    (h1 : ['#', ' '].isPrefixOf line = false)
    (h2 : ['#', '#', ' '].isPrefixOf line = false)
    (h3 : ['#', '#', '#', ' '].isPrefixOf line = false)
    (h4 : ['-', ' '].isPrefixOf line = false)
    (h5 : ['*', ' '].isPrefixOf line = false)
    (h6 : ((line.getD 0 ' ').isDigit : Bool) = false)
    (h7 : ['|'].isPrefixOf line = false) :
    Word.step (rows, out) line =
      if pyTrim line = ['-', '-', '-'] ∨ pyTrim line = ['*', '*', '*']
          ∨ pyTrim line = ['_', '_', '_'] then
        ([], Word.flush_table rows out ++ [Word.Block.pageBreak])
      else if !(pyTrim line).isEmpty then
        ([], Word.flush_table rows out ++ [Word.Block.para (pyTrim line)])
      else (rows, out) := by
  simp only [Word.step, h1, h2, h3, h4, h5, h6, h7, Bool.false_and, Bool.and_false,
    Bool.or_self, Bool.false_eq_true, if_false]

/-- A pdf-tool line matching none of the prefix-shaped branches reaches the
trim-based tail of the branch chain. -/
theorem pdf_step_unmatched (line : List Char) (bullets : List (List Char))
    (trows : List (List (List Char))) (pout : List Pdf.Block)
    (h1 : ['#', ' '].isPrefixOf line = false)
    (h2 : ['#', '#', ' '].isPrefixOf line = false)
    (h3 : ['#', '#', '#', ' '].isPrefixOf line = false)
    (h4 : ['-', ' '].isPrefixOf line = false)
    (h5 : ['*', ' '].isPrefixOf line = false)
    (h7 : ['|'].isPrefixOf line = false) :
    Pdf.step (bullets, trows, pout) line =
      if pyTrim line = ['-', '-', '-'] then
        ([], [], Pdf.flush_table trows (Pdf.flush_bullets bullets pout) ++ [Pdf.Block.rule])
      else if pyTrim line = ['=', '=', '='] then
        ([], [], Pdf.flush_table trows (Pdf.flush_bullets bullets pout) ++ [Pdf.Block.pageBreak])
      else if !(pyTrim line).isEmpty then
        ([], [], Pdf.flush_table trows (Pdf.flush_bullets bullets pout)
          ++ [Pdf.Block.para (pyTrim line)])
      else (bullets, trows, pout) := by
  simp only [Pdf.step, h1, h2, h3, h4, h5, h7, Bool.or_self, Bool.false_eq_true, if_false]

/-! ## Claim theorems -/

/-- C1, counterexample: called with an empty bearer token, the word tool's
`_upload_file` does issue the HTTP POST (with no Authorization header)
instead of failing before the network call, refuting the claim that all
three tools fail without attempting the network call. -/
theorem c1_missing_token_counterexample :
    word_upload_attempt [] = UploadAttempt.post none := rfl

/-- C1, amended: with an empty bearer token the excel and pdf upload helpers
raise a `ValueError` carrying the authentication-related message before any
network call, while the word tool's helper issues the POST without an
`Authorization` header and reports an authentication failure only when the
server answers 401. -/
theorem c1_missing_token_amended (token fileId : List Char) (h : token = []) :
    excel_upload_attempt token = UploadAttempt.authError noTokenMsg ∧
    pdf_upload_attempt token = UploadAttempt.authError noTokenMsg ∧
    word_upload_attempt token = UploadAttempt.post none ∧
    word_upload_response 401 fileId = UploadResult.authFailure notAuthenticatedMsg := by
  subst h
  exact ⟨rfl, rfl, rfl, rfl⟩

/-- C1, witness for the amended theorem at the empty token. -/
theorem c1_missing_token_amended_witness :
    (([] : List Char) = []) ∧ excel_upload_attempt [] = UploadAttempt.authError noTokenMsg :=
  ⟨rfl, (c1_missing_token_amended [] [] rfl).1⟩

/-- C2, counterexample: the sanitization regex replaces each character
outside word-characters/hyphen by its own underscore, so the run `space #`
in `My Report #3!` becomes two underscores, not one: the sanitized name is
`My_Report__3`, not the claimed `My_Report_3`. -/
theorem c2_sanitize_counterexample :
    safe_name "My Report #3!".toList = "My_Report__3".toList ∧
    safe_name "My Report #3!".toList ≠ "My_Report_3".toList :=
  ⟨by decide, by decide⟩

/-- C2, amended: the sanitized name replaces each character outside
word-characters/hyphen with one underscore per character (runs are not
collapsed) and trims leading/trailing underscores; every character of the
result is a word character or a hyphen, and `My Report #3!` sanitizes to
`My_Report__3`. -/
theorem c2_sanitize_amended (filename : List Char) :
    safe_name filename = stripBoth (fun c => c = '_') (filename.map sanitizeChar) ∧
    (safe_name filename).all (fun c => isWordChar c || c = '-') = true ∧
    safe_name "My Report #3!".toList = "My_Report__3".toList := by
  refine ⟨by rw [safe_name, reSubNonWord_eq_map], ?_, by decide⟩
  rw [List.all_eq_true]
  intro c hc
  have hc2 : c ∈ reSubNonWord filename := mem_of_mem_stripBoth hc
  rw [reSubNonWord_eq_map] at hc2
  obtain ⟨d, _, rfl⟩ := List.mem_map.mp hc2
  rcases Bool.eq_false_or_eq_true (isWordChar d || decide (d = '-')) with h | h
  · have hz : sanitizeChar d = d := by
      simp only [sanitizeChar]
      rw [if_pos h]
    rw [hz]; exact h
  · have hz : sanitizeChar d = '_' := by
      simp only [sanitizeChar]
      rw [if_neg]
      simp [h]
    rw [hz]; decide

/-- C6: the spreadsheet cell conversion detects `$1,234.50` as the number
1234.50 with the currency format, `12%` as the number 0.12 (the parsed 12
divided by 100) with the percentage format, and stores `N/A` unchanged as a
string. -/
theorem c6_numeric_cell_detection :
    Excel.cell_value "$1,234.50".toList
      = Excel.CellValue.num ((2469 : ℚ) / 2) Excel.NumberFormat.currency ∧
    Excel.cell_value "12%".toList
      = Excel.CellValue.num ((3 : ℚ) / 25) Excel.NumberFormat.percent ∧
    Excel.cell_value "N/A".toList = Excel.CellValue.str "N/A".toList := by
  refine ⟨?_, ?_, by decide⟩
  · have h : Excel.cell_value "$1,234.50".toList
        = Excel.CellValue.num
            ((1 : ℚ) * ((Excel.digitsVal ['1', '2', '3', '4'] : ℚ)
              + (Excel.digitsVal ['5', '0'] : ℚ) / (10 : ℚ) ^ 2))
            Excel.NumberFormat.currency := rfl
    have d1 : Excel.digitsVal ['1', '2', '3', '4'] = 1234 := by decide
    have d2 : Excel.digitsVal ['5', '0'] = 50 := by decide
    rw [h, d1, d2]
    norm_num
  · have h : Excel.cell_value "12%".toList
        = Excel.CellValue.num ((1 : ℚ) * (Excel.digitsVal ['1', '2'] : ℚ) / 100)
            Excel.NumberFormat.percent := rfl
    have d1 : Excel.digitsVal ['1', '2'] = 12 := by decide
    rw [h, d1]
    norm_num

/-- C9: the worksheet title is the truncation to 31 characters of the first
block line with `===` removed and whitespace trimmed: its length is
`min 31` of the full title's length (hence never more than 31, with longer
titles silently cut, as on the 40-character example). -/
theorem c9_sheet_title_truncation (block : List Char) :
    Excel.sheet_name block = (Excel.sheet_title_full block).take 31 ∧
    (Excel.sheet_name block).length = min 31 (Excel.sheet_title_full block).length ∧
    (Excel.sheet_name block).length ≤ 31 ∧
    Excel.sheet_name (List.replicate 40 'A') = List.replicate 31 'A' := by
  refine ⟨rfl, ?_, ?_, by decide⟩
  · rw [show Excel.sheet_name block = (Excel.sheet_title_full block).take 31 from rfl]
    exact List.length_take 31 _
  · rw [show Excel.sheet_name block = (Excel.sheet_title_full block).take 31 from rfl,
      List.length_take 31 _]
    exact min_le_left _ _

/-- C10: any `page_size` whose upper-cased form differs from `LETTER`
(for example `A4`, the empty string, or garbage) selects the A4 page size;
the selection is total, so no value is rejected. -/
theorem c10_page_size_default (page_size : List Char)
    (h : pyUpper page_size ≠ "LETTER".toList) : pdf_page page_size = PageSize.a4 := by
  simp only [pdf_page]
  rw [if_neg h]

/-- C10, witness at `A4`. -/
theorem c10_page_size_default_witness :
    pyUpper "A4".toList ≠ "LETTER".toList ∧ pdf_page "A4".toList = PageSize.a4 :=
  ⟨by decide, c10_page_size_default _ (by decide)⟩

theorem length_le_maxWidth {rows : List (List (List Char))} {r : List (List Char)}
    (h : r ∈ rows) : r.length ≤ maxWidth rows := by
  induction rows with
  | nil => cases h
  | cons x xs ih =>
    rcases List.mem_cons.mp h with rfl | h2
    · exact le_max_left _ _
    · exact le_trans (ih h2) (le_max_right _ _)

theorem word_grid_row (r : List (List Char)) (w : ℕ) (h : r.length ≤ w) :
    (List.range w).map (fun j => r.getD j []) = r ++ List.replicate (w - r.length) [] := by
  induction r generalizing w with
  | nil => simp
  | cons a as ih =>
    cases w with
    | zero => simp at h
    | succ w =>
      rw [List.range_succ_eq_map]
      simp only [List.map_cons, List.getD_cons_zero, List.map_map]
      have hcomp : ((fun j => (a :: as).getD j []) ∘ Nat.succ) = fun j => as.getD j [] := by
        funext j
        simp [List.getD_cons_succ]
      rw [hcomp, ih w (by simpa using h)]
      simp [Nat.succ_sub_succ]

/-- C7: flushing a non-empty table accumulator emits a rectangular grid:
as many rows as were accumulated, every row padded on the right with
empty-string cells to the maximum row length; the word tool's
`_flush_table` cell grid coincides with the pdf tool's padded rows. -/
theorem c7_table_padding (rows : List (List (List Char))) (h : rows ≠ []) :
    (Pdf.pad_rows rows).length = rows.length ∧
    (∀ p ∈ Pdf.pad_rows rows, p.length = maxWidth rows) ∧
    Pdf.pad_rows rows
      = rows.map (fun r => r ++ List.replicate (maxWidth rows - r.length) []) ∧
    Word.grid rows = Pdf.pad_rows rows := by
  refine ⟨by simp [Pdf.pad_rows], ?_, rfl, ?_⟩
  · intro p hp
    simp only [Pdf.pad_rows, List.mem_map] at hp
    obtain ⟨r, hr, rfl⟩ := hp
    have hle := length_le_maxWidth hr
    simp only [List.length_append, List.length_replicate]
    omega
  · simp only [Word.grid, Pdf.pad_rows]
    apply List.map_congr_left
    intro r hr
    exact word_grid_row r (maxWidth rows) (length_le_maxWidth hr)

/-- C7, witness on a two-row ragged table. -/
theorem c7_table_padding_witness :
    ([["a".toList], ["b".toList, "c".toList]] : List (List (List Char))) ≠ [] ∧
    (Pdf.pad_rows [["a".toList], ["b".toList, "c".toList]]).length = 2 :=
  ⟨by decide, (c7_table_padding [["a".toList], ["b".toList, "c".toList]] (by decide)).1⟩

/-- C8: on a line starting with `|`, both parsers split the pipe-trimmed
line on `|` and trim each cell; a row whose cells are all made of dashes,
pipes and spaces is discarded (the accumulator is unchanged), and any other
row is appended to the table accumulator in full.  The pdf tool additionally
flushes its pending bullets on such a line. -/
theorem c8_table_row_step (r : List Char) (rows : List (List (List Char)))
    (out : List Word.Block) (bullets : List (List Char))
    (trows : List (List (List Char))) (pout : List Pdf.Block) :
    Word.step (rows, out) ('|' :: r)
      = (if (table_cells ('|' :: r)).all (fun c => isSepText (pyTrim c)) then rows
         else rows ++ [table_cells ('|' :: r)], out) ∧
    Pdf.step (bullets, trows, pout) ('|' :: r)
      = ([], if (table_cells ('|' :: r)).all isSepText then trows
             else trows ++ [table_cells ('|' :: r)],
         Pdf.flush_bullets bullets pout) := by
  have h1 : ['#', ' '].isPrefixOf ('|' :: r) = false := prefix_false_head _ (by decide)
  have h2 : ['#', '#', ' '].isPrefixOf ('|' :: r) = false := prefix_false_head _ (by decide)
  have h3 : ['#', '#', '#', ' '].isPrefixOf ('|' :: r) = false :=
    prefix_false_head _ (by decide)
  have h4 : ['-', ' '].isPrefixOf ('|' :: r) = false := prefix_false_head _ (by decide)
  have h5 : ['*', ' '].isPrefixOf ('|' :: r) = false := prefix_false_head _ (by decide)
  have h6 : ((('|' :: r).getD 0 ' ').isDigit : Bool) = false := by
    rw [List.getD_cons_zero]
    decide
  have hp : ['|'].isPrefixOf ('|' :: r) = true := by simp [List.isPrefixOf_cons₂]
  constructor
  · simp only [Word.step, h1, h2, h3, h4, h5, h6, hp, Bool.false_and, Bool.and_false,
      Bool.or_self, Bool.false_eq_true, if_false, if_true]
  · simp only [Pdf.step, h1, h2, h3, h4, h5, hp, Bool.or_self, Bool.false_eq_true,
      if_false, if_true]

theorem pad_conds_false (w₁ w₂ : List Char) (h₁ : ∀ c ∈ w₁, pyWS c = true)
    (a b : Char) (t : List Char)
    (ha1 : a ≠ '#') (ha2 : a ≠ '|') (ha3 : a.isDigit = false) (hb : b ≠ ' ') :
    (['#', ' '].isPrefixOf (w₁ ++ (a :: b :: t) ++ w₂) = false) ∧
    (['#', '#', ' '].isPrefixOf (w₁ ++ (a :: b :: t) ++ w₂) = false) ∧
    (['#', '#', '#', ' '].isPrefixOf (w₁ ++ (a :: b :: t) ++ w₂) = false) ∧
    (['-', ' '].isPrefixOf (w₁ ++ (a :: b :: t) ++ w₂) = false) ∧
    (['*', ' '].isPrefixOf (w₁ ++ (a :: b :: t) ++ w₂) = false) ∧
    (((w₁ ++ (a :: b :: t) ++ w₂).getD 0 ' ').isDigit = false) ∧
    (['|'].isPrefixOf (w₁ ++ (a :: b :: t) ++ w₂) = false) := by
  cases w₁ with
  | nil =>
    simp only [List.nil_append, List.cons_append]
    exact ⟨prefix_false_head _ (Ne.symm ha1), prefix_false_head _ (Ne.symm ha1),
      prefix_false_head _ (Ne.symm ha1), prefix_false_second _ (Ne.symm hb),
      prefix_false_second _ (Ne.symm hb), by rw [List.getD_cons_zero]; exact ha3,
      prefix_false_head _ (Ne.symm ha2)⟩
  | cons c w₃ =>
    obtain ⟨hc1, hc2, hc3, hc4, hc5⟩ := ws_head_facts (h₁ c (List.mem_cons_self c w₃))
    simp only [List.cons_append]
    exact ⟨prefix_false_head _ (Ne.symm hc1), prefix_false_head _ (Ne.symm hc1),
      prefix_false_head _ (Ne.symm hc1), prefix_false_head _ (Ne.symm hc2),
      prefix_false_head _ (Ne.symm hc3), by rw [List.getD_cons_zero]; exact hc5,
      prefix_false_head _ (Ne.symm hc4)⟩

/-- C3, counterexample: a `***` line is parsed by the pdf tool as a plain
paragraph (its divider forms are only `---` and `===`), and a `===` line is
parsed by the word tool as a plain paragraph (its divider forms are `---`,
`***`, `___`), refuting the claim that every tool treats all four forms as
divider/page-break records. -/
theorem c3_divider_counterexample :
    Pdf.parse_content "***".toList = [Pdf.Block.para "***".toList] ∧
    Word.parse_content "===".toList = [Word.Block.para "===".toList] :=
  ⟨by decide, by decide⟩

/-- C3, amended: for a line equal to a divider form after trimming (written
as whitespace around the form), the word tool turns `---`/`***`/`___` into a
page break but parses `===` as a plain paragraph, while the pdf tool turns
`---` into a horizontal rule and `===` into a page break but parses `***`
and `___` as plain paragraphs. -/
theorem c3_divider_amended (w₁ w₂ : List Char)
    (h₁ : ∀ c ∈ w₁, pyWS c = true) (h₂ : ∀ c ∈ w₂, pyWS c = true)
    (rows : List (List (List Char))) (out : List Word.Block)
    (bullets : List (List Char)) (trows : List (List (List Char)))
    (pout : List Pdf.Block) :
    (Word.step (rows, out) (w₁ ++ ['-', '-', '-'] ++ w₂)
      = ([], Word.flush_table rows out ++ [Word.Block.pageBreak])) ∧
    (Word.step (rows, out) (w₁ ++ ['*', '*', '*'] ++ w₂)
      = ([], Word.flush_table rows out ++ [Word.Block.pageBreak])) ∧
    (Word.step (rows, out) (w₁ ++ ['_', '_', '_'] ++ w₂)
      = ([], Word.flush_table rows out ++ [Word.Block.pageBreak])) ∧
    (Word.step (rows, out) (w₁ ++ ['=', '=', '='] ++ w₂)
      = ([], Word.flush_table rows out ++ [Word.Block.para ['=', '=', '=']])) ∧
    (Pdf.step (bullets, trows, pout) (w₁ ++ ['-', '-', '-'] ++ w₂)
      = ([], [], Pdf.flush_table trows (Pdf.flush_bullets bullets pout)
          ++ [Pdf.Block.rule])) ∧
    (Pdf.step (bullets, trows, pout) (w₁ ++ ['=', '=', '='] ++ w₂)
      = ([], [], Pdf.flush_table trows (Pdf.flush_bullets bullets pout)
          ++ [Pdf.Block.pageBreak])) ∧
    (Pdf.step (bullets, trows, pout) (w₁ ++ ['*', '*', '*'] ++ w₂)
      = ([], [], Pdf.flush_table trows (Pdf.flush_bullets bullets pout)
          ++ [Pdf.Block.para ['*', '*', '*']])) ∧
    (Pdf.step (bullets, trows, pout) (w₁ ++ ['_', '_', '_'] ++ w₂)
      = ([], [], Pdf.flush_table trows (Pdf.flush_bullets bullets pout)
          ++ [Pdf.Block.para ['_', '_', '_']])) := by
  have trD : pyTrim (w₁ ++ ['-', '-', '-'] ++ w₂) = ['-', '-', '-'] :=
    pyTrim_pad '-' ['-', '-'] h₁ h₂ (by decide) (by decide)
  have trS : pyTrim (w₁ ++ ['*', '*', '*'] ++ w₂) = ['*', '*', '*'] :=
    pyTrim_pad '*' ['*', '*'] h₁ h₂ (by decide) (by decide)
  have trU : pyTrim (w₁ ++ ['_', '_', '_'] ++ w₂) = ['_', '_', '_'] :=
    pyTrim_pad '_' ['_', '_'] h₁ h₂ (by decide) (by decide)
  have trE : pyTrim (w₁ ++ ['=', '=', '='] ++ w₂) = ['=', '=', '='] :=
    pyTrim_pad '=' ['=', '='] h₁ h₂ (by decide) (by decide)
  obtain ⟨d1, d2, d3, d4, d5, d6, d7⟩ :=
    pad_conds_false w₁ w₂ h₁ '-' '-' ['-'] (by decide) (by decide) (by decide) (by decide)
  obtain ⟨s1, s2, s3, s4, s5, s6, s7⟩ :=
    pad_conds_false w₁ w₂ h₁ '*' '*' ['*'] (by decide) (by decide) (by decide) (by decide)
  obtain ⟨u1, u2, u3, u4, u5, u6, u7⟩ :=
    pad_conds_false w₁ w₂ h₁ '_' '_' ['_'] (by decide) (by decide) (by decide) (by decide)
  obtain ⟨e1, e2, e3, e4, e5, e6, e7⟩ :=
    pad_conds_false w₁ w₂ h₁ '=' '=' ['='] (by decide) (by decide) (by decide) (by decide)
  refine ⟨?_, ?_, ?_, ?_, ?_, ?_, ?_, ?_⟩
  · have hW := word_step_unmatched _ rows out d1 d2 d3 d4 d5 d6 d7
    rw [trD] at hW
    rw [hW]
    simp
  · have hW := word_step_unmatched _ rows out s1 s2 s3 s4 s5 s6 s7
    rw [trS] at hW
    rw [hW]
    simp
  · have hW := word_step_unmatched _ rows out u1 u2 u3 u4 u5 u6 u7
    rw [trU] at hW
    rw [hW]
    simp
  · have hW := word_step_unmatched _ rows out e1 e2 e3 e4 e5 e6 e7
    rw [trE] at hW
    rw [hW]
    simp
  · have hP := pdf_step_unmatched _ bullets trows pout d1 d2 d3 d4 d5 d7
    rw [trD] at hP
    rw [hP]
    simp
  · have hP := pdf_step_unmatched _ bullets trows pout e1 e2 e3 e4 e5 e7
    rw [trE] at hP
    rw [hP]
    simp
  · have hP := pdf_step_unmatched _ bullets trows pout s1 s2 s3 s4 s5 s7
    rw [trS] at hP
    rw [hP]
    simp
  · have hP := pdf_step_unmatched _ bullets trows pout u1 u2 u3 u4 u5 u7
    rw [trU] at hP
    rw [hP]
    simp

/-- C3, witness for the amended theorem on the literal lines (empty
whitespace padding). -/
theorem c3_divider_amended_witness :
    (∀ c ∈ ([] : List Char), pyWS c = true) ∧
    Word.step (([], []) : Word.State) ['=', '=', '=']
      = ([], [Word.Block.para ['=', '=', '=']]) := by
  refine ⟨by simp, ?_⟩
  have h := (c3_divider_amended [] [] (by simp) (by simp) [] [] [] [] []).2.2.2.1
  simpa [Word.flush_table] using h

/-- C4, counterexample: a blank line does not flush the pending
accumulators: two table-line runs separated by a blank line come out of the
word tool as one merged table block, and two bullet runs separated by a
blank line come out of the pdf tool as one merged bullet block, refuting the
claimed flush-boundary behavior of blank lines. -/
theorem c4_blank_flush_counterexample :
    Word.parse_content "| a |\n\n| b |".toList
      = [Word.Block.table [[['a']], [['b']]]] ∧
    Pdf.parse_content "- a\n\n- b".toList
      = [Pdf.Block.bulletList [['a'], ['b']]] :=
  ⟨by decide, by decide⟩

/-- C4, amended: a line consisting entirely of whitespace (in particular an
empty line) matches no parser branch in either tool: the parser state —
pending bullet items, pending table rows, and emitted blocks — is left
completely unchanged, so runs separated by blank lines merge into a single
block. -/
theorem c4_blank_line_amended (line : List Char) (h : ∀ c ∈ line, pyWS c = true)
    (rows : List (List (List Char))) (out : List Word.Block)
    (bullets : List (List Char)) (trows : List (List (List Char)))
    (pout : List Pdf.Block) :
    Word.step (rows, out) line = (rows, out) ∧
    Pdf.step (bullets, trows, pout) line = (bullets, trows, pout) := by
  have htrim : pyTrim line = [] := pyTrim_all_ws h
  cases line with
  | nil => exact ⟨rfl, rfl⟩
  | cons c rest =>
    obtain ⟨hc1, hc2, hc3, hc4, hc5⟩ := ws_head_facts (h c (List.mem_cons_self c rest))
    have h1 : ['#', ' '].isPrefixOf (c :: rest) = false := prefix_false_head _ (Ne.symm hc1)
    have h2 : ['#', '#', ' '].isPrefixOf (c :: rest) = false :=
      prefix_false_head _ (Ne.symm hc1)
    have h3 : ['#', '#', '#', ' '].isPrefixOf (c :: rest) = false :=
      prefix_false_head _ (Ne.symm hc1)
    have h4 : ['-', ' '].isPrefixOf (c :: rest) = false := prefix_false_head _ (Ne.symm hc2)
    have h5 : ['*', ' '].isPrefixOf (c :: rest) = false := prefix_false_head _ (Ne.symm hc3)
    have h6 : (((c :: rest).getD 0 ' ').isDigit : Bool) = false := by
      rw [List.getD_cons_zero]
      exact hc5
    have hp : ['|'].isPrefixOf (c :: rest) = false := prefix_false_head _ (Ne.symm hc4)
    have hW := word_step_unmatched (c :: rest) rows out h1 h2 h3 h4 h5 h6 hp
    have hP := pdf_step_unmatched (c :: rest) bullets trows pout h1 h2 h3 h4 h5 hp
    rw [htrim] at hW hP
    constructor
    · rw [hW]; simp
    · rw [hP]; simp

/-- C4, witness for the amended theorem on a one-space line. -/
theorem c4_blank_line_amended_witness :
    (∀ c ∈ [' '], pyWS c = true) ∧
    Word.step (([], []) : Word.State) [' '] = (([], []) : Word.State) :=
  ⟨by decide, (c4_blank_line_amended [' '] (by decide) [] [] [] [] []).1⟩

/-- C5, counterexample: the pdf tool has no numbered-list branch, so the
line `1. item` is parsed by it as a plain paragraph, refuting the claim
that each tool's parser classifies such lines as numbered list items. -/
theorem c5_numbered_counterexample :
    Pdf.parse_content "1. item".toList = [Pdf.Block.para "1. item".toList] := by
  decide

/-- C5, amended: a line starting with a digit, then `.` or `)`, then a
space, is parsed by the word tool as a numbered list item carrying the text
after the three-character prefix, but by the pdf tool as a plain
paragraph. -/
theorem c5_numbered_amended (d p : Char) (rest : List Char)
    (hd : d.isDigit = true) (hp : p = '.' ∨ p = ')')
    (rows : List (List (List Char))) (out : List Word.Block)
    (bullets : List (List Char)) (trows : List (List (List Char)))
    (pout : List Pdf.Block) :
    Word.step (rows, out) (d :: p :: ' ' :: rest)
      = ([], Word.flush_table rows out ++ [Word.Block.numbered (pyTrim rest)]) ∧
    Pdf.step (bullets, trows, pout) (d :: p :: ' ' :: rest)
      = ([], [], Pdf.flush_table trows (Pdf.flush_bullets bullets pout)
          ++ [Pdf.Block.para (pyTrim (d :: p :: ' ' :: rest))]) := by
  obtain ⟨hne1, hne2, hne3, hne4, hne5, hws⟩ := digit_head_facts hd
  have h1 : ['#', ' '].isPrefixOf (d :: p :: ' ' :: rest) = false :=
    prefix_false_head _ (Ne.symm hne1)
  have h2 : ['#', '#', ' '].isPrefixOf (d :: p :: ' ' :: rest) = false :=
    prefix_false_head _ (Ne.symm hne1)
  have h3 : ['#', '#', '#', ' '].isPrefixOf (d :: p :: ' ' :: rest) = false :=
    prefix_false_head _ (Ne.symm hne1)
  have h4 : ['-', ' '].isPrefixOf (d :: p :: ' ' :: rest) = false :=
    prefix_false_head _ (Ne.symm hne2)
  have h5 : ['*', ' '].isPrefixOf (d :: p :: ' ' :: rest) = false :=
    prefix_false_head _ (Ne.symm hne3)
  have hpipe : ['|'].isPrefixOf (d :: p :: ' ' :: rest) = false :=
    prefix_false_head _ (Ne.symm hne4)
  constructor
  · have hcond : (2 < (d :: p :: ' ' :: rest).length
        && ((d :: p :: ' ' :: rest).getD 0 ' ').isDigit
        && ((d :: p :: ' ' :: rest).getD 1 'x' = '.'
            || (d :: p :: ' ' :: rest).getD 1 'x' = ')')
        && (d :: p :: ' ' :: rest).getD 2 'x' = ' ') = true := by
      simp only [List.getD_cons_zero, List.getD_cons_succ, List.length_cons, hd]
      rcases hp with rfl | rfl <;> simp
    simp only [Word.step, h1, h2, h3, h4, h5, hpipe, hcond, Bool.or_self,
      Bool.false_eq_true, if_false, if_true, List.drop_succ_cons, List.drop_zero]
  · have hP := pdf_step_unmatched (d :: p :: ' ' :: rest) bullets trows pout
      h1 h2 h3 h4 h5 hpipe
    have htr : pyTrim (d :: p :: ' ' :: rest)
        = d :: stripRight pyWS (p :: ' ' :: rest) := pyTrim_cons_not_ws hws
    have hA : ¬ pyTrim (d :: p :: ' ' :: rest) = ['-', '-', '-'] := by
      rw [htr]
      intro heq
      injection heq with heq1 _
      exact hne2 heq1
    have hB : ¬ pyTrim (d :: p :: ' ' :: rest) = ['=', '=', '='] := by
      rw [htr]
      intro heq
      injection heq with heq1 _
      exact hne5 heq1
    have hC : (!(pyTrim (d :: p :: ' ' :: rest)).isEmpty) = true := by
      rw [htr]
      rfl
    rw [hP, if_neg hA, if_neg hB, if_pos hC]

/-- C5, witness for the amended theorem at `1. item`. -/
theorem c5_numbered_amended_witness :
    (('1' : Char).isDigit = true) ∧
    Word.step (([], []) : Word.State) "1. item".toList
      = ([], [Word.Block.numbered "item".toList]) := by
  refine ⟨by decide, ?_⟩
  exact (c5_numbered_amended '1' '.' "item".toList (by decide) (Or.inl rfl)
    [] [] [] [] []).1

end OpenWebUITools
